import Mathlib

/-!
Verification of `src/services/transaction_service.py`.

The Python module has three functions:
  * `fetch_transactions_by_date(date_str)` — parses an `MM/DD/YYYY` date,
    builds a closed day window `[00:00:00, 23:59:59]`, queries the
    `transactions` collection with that window AND
    `is_processed_for_recommendation == False`, stringifies each `_id`,
    and returns the records.
  * `clean_completion_text(text)` — strips whitespace and a leading (and
    optionally trailing) triple-backtick markdown fence.
  * `get_recommended_transaction_by_date(date_str)` — same window and
    query, early-returns a message object when nothing matches, builds a
    prompt, calls the completion provider, cleans and JSON-decodes the
    reply.

This file embeds those functions shallowly: Python strings become
`List Char` (wrapped in `String` at the API boundary), the MongoDB
collection becomes a list of records filtered by the query predicate,
the OpenAI client becomes a function from the two messages to
`Except String String` (exception text or reply text), and `json.loads`
becomes an abstract parameter `parse : String → Option J`.
-/

/-! ### Python string primitives -/

/-- Whitespace characters removed by Python `str.strip()` (ASCII subset;
CPython also strips further Unicode whitespace, which none of the
properties below depend on). -/
def wsChar (c : Char) : Bool :=
  c == ' ' || c == '\t' || c == '\n' || c == '\r' || c == '\x0b' || c == '\x0c'

/-- Left part of Python `str.strip()`. -/
def stripLeft (l : List Char) : List Char := l.dropWhile wsChar

/-- Right part of Python `str.strip()`. -/
def stripRight (l : List Char) : List Char := (l.reverse.dropWhile wsChar).reverse

/-- Python `str.strip()`: drop leading and trailing whitespace. -/
def strip (l : List Char) : List Char := stripRight (stripLeft l)

/-- The triple-backtick fence tested by `text.startswith("```")`. -/
def fence : List Char := "```".data

/-- Python `text.startswith(p)` on character lists. -/
def startswith (p l : List Char) : Bool := p.isPrefixOf l

/-- Accumulator pass of Python `str.splitlines()`: split on `\n`, `\r\n`
and `\r`, without a trailing empty line for text ending in a newline. -/
def splitlinesAux : List Char → List Char → List (List Char)
  | [], acc => if acc.isEmpty then [] else [acc.reverse]
  | '\r' :: '\n' :: rest, acc => acc.reverse :: splitlinesAux rest []
  | '\n' :: rest, acc => acc.reverse :: splitlinesAux rest []
  | '\r' :: rest, acc => acc.reverse :: splitlinesAux rest []
  | c :: rest, acc => splitlinesAux rest (c :: acc)

/-- Python `str.splitlines()`. -/
def splitlines (l : List Char) : List (List Char) := splitlinesAux l []

/-- Python `"\n".join(lines)` on character lists. -/
def joinNewline : List (List Char) → List Char
  | [] => []
  | [l] => l
  | l :: ls => l ++ '\n' :: joinNewline ls

/-! ### clean_completion_text -/

/-- Embedding of `clean_completion_text` (lines 34–49): strip the text;
if it starts with a triple-backtick fence, drop the first line when it
starts with a fence, drop the last line when it starts with a fence,
re-join with `\n` and re-strip.  The `[] => []` branch of the inner
match is unreachable (Python would raise `IndexError` on `lines[0]`
there; `clean_completion_textChecked` models that access faithfully and
is proved to never hit it). -/
def clean_completion_text (t : List Char) : List Char :=
  let text := strip t
  if startswith fence text then
    let lines0 := splitlines text
    let lines1 :=
      match lines0 with
      | [] => []
      | first :: rest => if startswith fence first then rest else first :: rest
    let lines2 :=
      match lines1.getLast? with
      | some last => if startswith fence last then lines1.dropLast else lines1
      | none => lines1
    strip (joinNewline lines2)
  else
    text

/-- Variant of `clean_completion_text` that models the partiality of the
Python `lines[0]` subscript: `none` is the `IndexError` case. -/
def clean_completion_textChecked (t : List Char) : Option (List Char) :=
  let text := strip t
  if startswith fence text then
    match splitlines text with
    | [] => none
    | first :: rest =>
      let lines1 := if startswith fence first then rest else first :: rest
      let lines2 :=
        match lines1.getLast? with
        | some last => if startswith fence last then lines1.dropLast else lines1
        | none => lines1
      some (strip (joinNewline lines2))
  else
    some text

/-! ### strip lemmas -/

theorem dropWhile_dropWhile (p : Char → Bool) (l : List Char) :
    (l.dropWhile p).dropWhile p = l.dropWhile p := by
  induction l with
  | nil => rfl
  | cons a t ih =>
    by_cases h : p a
    · simp [List.dropWhile_cons, h, ih]
    · simp [List.dropWhile_cons, h]

theorem stripRight_isPrefix (l : List Char) :
    ∃ t, l = stripRight l ++ t := by
  refine ⟨(l.reverse.takeWhile wsChar).reverse, ?_⟩
  unfold stripRight
  rw [← List.reverse_append, List.takeWhile_append_dropWhile, List.reverse_reverse]

theorem stripLeft_stripLeft (l : List Char) : stripLeft (stripLeft l) = stripLeft l :=
  dropWhile_dropWhile wsChar l

theorem stripRight_stripRight (l : List Char) :
    stripRight (stripRight l) = stripRight l := by
  unfold stripRight
  rw [List.reverse_reverse, dropWhile_dropWhile]

theorem length_dropWhile_le (p : Char → Bool) (l : List Char) :
    (l.dropWhile p).length ≤ l.length := by
  induction l with
  | nil => simp
  | cons a t ih =>
    rw [List.dropWhile_cons]
    by_cases h : p a = true
    · simp only [h, if_true]
      exact Nat.le_succ_of_le ih
    · simp [h]

/-- If dropping a leading whitespace run leaves a list unchanged, its
head is not whitespace. -/
theorem dropWhile_self_head (p : Char → Bool) (a : Char) (s : List Char)
    (h : (a :: s).dropWhile p = a :: s) : p a = false := by
  cases hpa : p a with
  | false => rfl
  | true =>
    rw [List.dropWhile_cons, hpa, if_pos rfl] at h
    have hlen : (s.dropWhile p).length ≤ s.length := length_dropWhile_le p s
    rw [h] at hlen
    simp at hlen

/-- If a list has no leading whitespace, neither does any prefix of it,
in particular `stripRight` of it. -/
theorem stripLeft_stripRight (l : List Char) (h : stripLeft l = l) :
    stripLeft (stripRight l) = stripRight l := by
  obtain ⟨t, ht⟩ := stripRight_isPrefix l
  cases hsr : stripRight l with
  | nil => rfl
  | cons a s =>
    have hl : l = a :: (s ++ t) := by rw [ht, hsr]; simp
    have ha : wsChar a = false := by
      have h' : (a :: (s ++ t)).dropWhile wsChar = a :: (s ++ t) := by
        rw [← hl]; exact h
      exact dropWhile_self_head wsChar a (s ++ t) h'
    unfold stripLeft
    rw [List.dropWhile_cons, ha]
    simp

theorem strip_idem (l : List Char) : strip (strip l) = strip l := by
  unfold strip
  rw [stripLeft_stripRight (stripLeft l) (stripLeft_stripLeft l), stripRight_stripRight]

/-- `clean_completion_text` always returns an already-stripped string. -/
theorem clean_stripped (t : List Char) :
    strip (clean_completion_text t) = clean_completion_text t := by
  unfold clean_completion_text
  by_cases h : startswith fence (strip t)
  · simp only [h, if_true]
    exact strip_idem _
  · simp only [h, if_false]
    exact strip_idem t

/-- `splitlinesAux` never returns the empty list unless both the input
and the accumulator are empty. -/
theorem splitlinesAux_ne_nil (l acc : List Char) (h : l ≠ [] ∨ acc ≠ []) :
    splitlinesAux l acc ≠ [] := by
  induction l, acc using splitlinesAux.induct with
  | case1 acc hacc =>
    rcases h with h | h
    · exact absurd rfl h
    · exact absurd (List.isEmpty_iff.mp hacc) h
  | case2 acc hacc =>
    rw [splitlinesAux.eq_1, if_neg hacc]
    simp
  | case3 rest acc ih => simp [splitlinesAux]
  | case4 rest acc ih => simp [splitlinesAux]
  | case5 rest acc hne ih => simp [splitlinesAux, hne]
  | case6 c rest acc h1 h2 h3 ih =>
    have heq : splitlinesAux (c :: rest) acc = splitlinesAux rest (c :: acc) := by
      simp [splitlinesAux, h1, h2, h3]
    rw [heq]
    exact ih (Or.inr (by simp))

/-- A nonempty list splits into at least one line. -/
theorem splitlines_ne_nil (l : List Char) (h : l ≠ []) : splitlines l ≠ [] :=
  splitlinesAux_ne_nil l [] (Or.inl h)

/-- Cleaning a text that does not change under `strip` and does not start
with a fence is a no-op. -/
theorem clean_of_stripped_no_fence (y : List Char) (hy : strip y = y)
    (hfence : startswith fence y = false) : clean_completion_text y = y := by
  simp only [clean_completion_text]
  rw [hy, hfence]
  simp

theorem startswith_fence_ne_nil (x : List Char) (h : startswith fence x = true) :
    x ≠ [] := by
  intro hx
  subst hx
  exact absurd h (by decide)

/-- The checked embedding (with the explicit `lines[0]` subscript) never
raises: it always agrees with the total embedding. -/
theorem clean_checked_eq (t : List Char) :
    clean_completion_textChecked t = some (clean_completion_text t) := by
  unfold clean_completion_text clean_completion_textChecked
  by_cases h : startswith fence (strip t)
  · simp only [h, if_true]
    cases hsplit : splitlines (strip t) with
    | nil => exact absurd hsplit (splitlines_ne_nil _ (startswith_fence_ne_nil _ h))
    | cons first rest => simp only [hsplit]
  · simp only [h]
    simp

/-! ### Claims C2, C9, C10 (clean_completion_text) -/

/-- Claim C2 counterexample: fence-stripping is not idempotent.  On
`"```\n```x\ny"` one cleaning pass yields `"```x\ny"` (the inner fence
line survives as the new first line), and a second pass strips it again,
yielding `"y"`. -/
theorem claim_C2_counterexample :
    clean_completion_text (clean_completion_text "```\n```x\ny".data) ≠
      clean_completion_text "```\n```x\ny".data := by decide

/-- Claim C2 (amended): `clean_completion_text` is idempotent on every
input whose cleaned form does not itself begin with a triple-backtick
fence; re-cleaning such an output is a no-op. -/
theorem claim_C2_clean_idempotent_of_no_fence (x : List Char)
    (h : startswith fence (clean_completion_text x) = false) :
    clean_completion_text (clean_completion_text x) = clean_completion_text x :=
  clean_of_stripped_no_fence _ (clean_stripped x) h

/-- Claim C2 witness: the amended idempotence applied to an ordinary
fenced reply. -/
theorem claim_C2_witness :
    clean_completion_text (clean_completion_text "```json\nabc\n```".data) =
      clean_completion_text "```json\nabc\n```".data :=
  claim_C2_clean_idempotent_of_no_fence "```json\nabc\n```".data (by decide)

/-- Claim C9: if the stripped input does not begin with a triple-backtick
fence, `clean_completion_text` returns exactly the stripped input. -/
theorem claim_C9_no_fence_clean_eq_strip (x : List Char)
    (h : startswith fence (strip x) = false) :
    clean_completion_text x = strip x := by
  simp only [clean_completion_text, h]
  simp

/-- Claim C9 witness: a plain text with surrounding whitespace. -/
theorem claim_C9_witness :
    startswith fence (strip "  hello  ".data) = false ∧
    clean_completion_text "  hello  ".data = strip "  hello  ".data :=
  ⟨by decide, claim_C9_no_fence_clean_eq_strip "  hello  ".data (by decide)⟩

/-- Claim C10: `clean_completion_text` is total — the checked variant
that models Python's `lines[0]` subscript never returns the IndexError
case but always the total embedding's value — its output is always its
own stripped form (no leading or trailing whitespace), and the empty
string, a lone fence line, and a one-line fenced input all map to the
empty string without error. -/
theorem claim_C10_total_and_trimmed :
    (∀ t : List Char, clean_completion_textChecked t = some (clean_completion_text t)) ∧
    (∀ t : List Char, strip (clean_completion_text t) = clean_completion_text t) ∧
    clean_completion_text "".data = "".data ∧
    clean_completion_text "```".data = "".data ∧
    clean_completion_text "```json".data = "".data :=
  ⟨clean_checked_eq, clean_stripped, by decide, by decide, by decide⟩

/-! ### Python datetime and the date parser -/

/-- A naive `datetime.datetime` value (no timezone component, matching
the constructor calls `datetime(year, month, day, h, m, s)`). -/
structure PyDateTime where
  year : Nat
  month : Nat
  day : Nat
  hour : Nat
  minute : Nat
  second : Nat
deriving DecidableEq

/-- Ordering of naive datetimes (field-lexicographic), as used by the
`$gte`/`$lte` range conditions of the query. -/
def dtLe (a b : PyDateTime) : Bool :=
  if a.year ≠ b.year then decide (a.year < b.year)
  else if a.month ≠ b.month then decide (a.month < b.month)
  else if a.day ≠ b.day then decide (a.day < b.day)
  else if a.hour ≠ b.hour then decide (a.hour < b.hour)
  else if a.minute ≠ b.minute then decide (a.minute < b.minute)
  else decide (a.second ≤ b.second)

/-- Split a character list at every `/` (Python `str.split('/')`). -/
def splitSlashAux : List Char → List Char → List (List Char)
  | [], acc => [acc.reverse]
  | '/' :: rest, acc => acc.reverse :: splitSlashAux rest []
  | c :: rest, acc => splitSlashAux rest (c :: acc)

def splitSlash (l : List Char) : List (List Char) := splitSlashAux l []

/-- Value of a run of decimal digits. -/
def digitsToNat (l : List Char) : Nat :=
  l.foldl (fun acc c => acc * 10 + (c.toNat - 48)) 0

def isLeapYear (y : Nat) : Bool := (y % 4 == 0 && y % 100 != 0) || y % 400 == 0

def daysInMonth (y m : Nat) : Nat :=
  if m == 2 then (if isLeapYear y then 29 else 28)
  else if m == 4 || m == 6 || m == 9 || m == 11 then 30
  else 31

/-- Model of `datetime.strptime(date_str, "%m/%d/%Y")`: the `%m` and
`%d` fields are one or two digits (values 1–12 and 1–31, the latter
further validated against the month by the `datetime` constructor), the
`%Y` field is exactly four digits with value at least `MINYEAR = 1`, and
the whole string must be consumed.  `none` models the raised
`ValueError`; `some (year, month, day)` is the parsed calendar date. -/
def strptime_mdY (s : String) : Option (Nat × Nat × Nat) :=
  match splitSlash s.data with
  | [mm, dd, yyyy] =>
    if mm.all Char.isDigit && dd.all Char.isDigit && yyyy.all Char.isDigit &&
        decide (1 ≤ mm.length) && decide (mm.length ≤ 2) &&
        decide (1 ≤ dd.length) && decide (dd.length ≤ 2) &&
        decide (yyyy.length = 4) then
      let m := digitsToNat mm
      let d := digitsToNat dd
      let y := digitsToNat yyyy
      if decide (1 ≤ m) && decide (m ≤ 12) && decide (1 ≤ d) &&
          decide (d ≤ daysInMonth y m) && decide (1 ≤ y) then
        some (y, m, d)
      else none
    else none
  | _ => none

/-! ### The transaction repository -/

/-- A repository-native identifier: either a Mongo ObjectId (carrying
its hex rendering) or an already-stringified id. -/
inductive MongoId where
  | oid (hex : String)
  | str (s : String)
deriving DecidableEq

/-- Python `str(...)` applied to an `_id` value (for an ObjectId this is
its hex representation). -/
def MongoId.toStr : MongoId → String
  | .oid hex => hex
  | .str s => s

/-- Whether an identifier has already been converted to a plain string. -/
def MongoId.isStr : MongoId → Bool
  | .oid _ => false
  | .str _ => true

/-- A record of the `transactions` collection with the fields the module
reads.  The numeric fields are carried in the rendered form the store
would present, since the module only interpolates them into prompt
text. -/
structure Transaction where
  _id : MongoId
  transaction_id : String
  transaction_type : String
  balance_after_transaction : String
  amount : String
  merchant_category : String
  description : String
  transaction_date : PyDateTime
  is_processed_for_recommendation : Bool
deriving DecidableEq

/-- The query document both entry points build (lines 21–27 and 66–72,
textually identical in the source): `transaction_date` within
`[start_of_day, end_of_day]` AND `is_processed_for_recommendation ==
False`.  `collection.find(query)` is modelled as filtering the
collection in its natural order. -/
def queryFilter (start_of_day end_of_day : PyDateTime) (tx : Transaction) : Bool :=
  dtLe start_of_day tx.transaction_date && dtLe tx.transaction_date end_of_day &&
    tx.is_processed_for_recommendation == false

/-! ### Entry point 1: fetch_transactions_by_date -/

/-- Errors this module lets escape to its caller; `formatError` is the
`ValueError` raised by `datetime.strptime` on a malformed date string. -/
inductive PyError where
  | formatError (input : String)
deriving DecidableEq

/-- Day-window construction in `fetch_transactions_by_date` (lines
17–19): midnight and 23:59:59 of the parsed calendar day, as naive
datetimes. -/
def fetchWindow (date_str : String) : Option (PyDateTime × PyDateTime) :=
  (strptime_mdY date_str).map fun (y, m, d) =>
    (⟨y, m, d, 0, 0, 0⟩, ⟨y, m, d, 23, 59, 59⟩)

/-- Day-window construction in `get_recommended_transaction_by_date`
(lines 62–64), textually identical to the one in
`fetch_transactions_by_date`. -/
def recommendWindow (date_str : String) : Option (PyDateTime × PyDateTime) :=
  (strptime_mdY date_str).map fun (y, m, d) =>
    (⟨y, m, d, 0, 0, 0⟩, ⟨y, m, d, 23, 59, 59⟩)

/-- Embedding of `fetch_transactions_by_date` (lines 9–32): parse the
date (propagating the `ValueError` as `.error`), build the day window,
run the query — which despite the docstring's "ignoring
is_processed_for_recommendation" includes the flag condition — and
stringify every `_id` of the result. -/
def fetch_transactions_by_date (db : List Transaction) (date_str : String) :
    Except PyError (List Transaction) :=
  match fetchWindow date_str with
  | none => .error (.formatError date_str)
  | some (start_of_day, end_of_day) =>
    let transactions := db.filter (queryFilter start_of_day end_of_day)
    .ok (transactions.map fun tx => { tx with _id := .str tx._id.toStr })

/-! ### Entry point 2: get_recommended_transaction_by_date -/

/-- One line of the prompt context (lines 85–92).  The source's missing
separator between the balance and amount fields is preserved. -/
def txDescription (tx : Transaction) : String :=
  "TransactionID: " ++ tx.transaction_id ++ ", " ++
  "Type: " ++ tx.transaction_type ++ ", " ++
  "Balance After Transaction: " ++ tx.balance_after_transaction ++
  "Amount: " ++ tx.amount ++ ", " ++
  "Category: " ++ tx.merchant_category ++ ", " ++
  "Desc: " ++ tx.description

/-- The fixed system instruction (lines 97–109); `\x7b` and `\x7d` are
the literal braces of the JSON template. -/
def system_instructions : String :=
  "You are a Wells Fargo product recommendation system. " ++
  "Given a list of transactions, pick transactions (transaction_id) " ++
  "for which a Wells Fargo product can be recommended. " ++
  "Output a list of JSON objects with the format:\n" ++
  "[ \x7b\n" ++
  "  \"transaction_id\": \"<the chosen transaction id>\",\n" ++
  "  \"category\": \"<the chosen transaction category>\",\n" ++
  "  \"description\": \"<the chosen transaction description>\",\n" ++
  "  \"type\": \"<the chosen transaction type>\",\n" ++
  "  \"reason\": \"<short reason why this product suits the transaction>\"\n" ++
  "\x7d ]"

def prompt_context (txs : List Transaction) : String :=
  String.intercalate "\n" (txs.map txDescription)

def user_message (txs : List Transaction) : String :=
  "Transactions:\n" ++ prompt_context txs ++ "\nWhich transactions do you pick?"

/-- The dictionaries `get_recommended_transaction_by_date` can return;
each constructor carries exactly the keys of the corresponding Python
dict — in particular `apiError` has an `error` key and no
`raw_response` key, while `decodeError` has both. -/
inductive RecResult (J : Type) where
  | noData (message : String) (date : String)
  | apiError (error : String)
  | decodeError (error : String) (raw_response : String)
  | success (value : J)
deriving DecidableEq

/-- Counters observing the pipeline's external effects in one run: how
many completion-provider calls and how many `json.loads` attempts it
performs. -/
structure Trace where
  providerCalls : Nat
  parseAttempts : Nat
deriving DecidableEq

/-- The fetch stage of `get_recommended_transaction_by_date` (lines
62–74): parse the date, build the day window, run the selection query.
The retrieved records are passed on unchanged — unlike
`fetch_transactions_by_date`, this entry point never stringifies
`_id`. -/
def recommendFetchStage (db : List Transaction) (date_str : String) :
    Option (List Transaction) :=
  (recommendWindow date_str).map fun (start_of_day, end_of_day) =>
    db.filter (queryFilter start_of_day end_of_day)

/-- Embedding of `get_recommended_transaction_by_date` (lines 51–139).
`provider` stands for the OpenAI chat-completion client: applied to the
system and user messages it yields either the exception's text
(`.error e`, the `except Exception as e` branch) or the reply content
(`.ok`).  `parse` stands for `json.loads`, with `none` modelling a
raised `json.JSONDecodeError`.  The returned `Trace` counts provider
calls and parse attempts. -/
def get_recommended_transaction_by_date {J : Type}
    (parse : String → Option J)
    (db : List Transaction)
    (provider : String → String → Except String String)
    (date_str : String) :
    Except PyError (RecResult J × Trace) :=
  match recommendFetchStage db date_str with
  | none => .error (.formatError date_str)
  | some unprocessed_txs =>
    if unprocessed_txs.isEmpty then
      .ok (.noData "No unprocessed transactions found for this date" date_str, ⟨0, 0⟩)
    else
      match provider system_instructions (user_message unprocessed_txs) with
      | .error e => .ok (.apiError ("OpenAI API call failed: " ++ e), ⟨1, 0⟩)
      | .ok content =>
        let completion_text := String.mk (strip content.data)
        let completion_text := String.mk (clean_completion_text completion_text.data)
        match parse completion_text with
        | none =>
          .ok (.decodeError "Failed to parse LLM response as JSON." completion_text, ⟨1, 1⟩)
        | some llm_json => .ok (.success llm_json, ⟨1, 1⟩)

deriving instance DecidableEq for Except

/-! ### Concrete fixtures -/

/-- An unprocessed transaction of 03/01/2024 whose `_id` is still a
native ObjectId. -/
def oidTx : Transaction :=
  { _id := .oid "65defc1399", transaction_id := "T1", transaction_type := "debit",
    balance_after_transaction := "500", amount := "20",
    merchant_category := "travel", description := "Flight",
    transaction_date := ⟨2024, 3, 1, 10, 30, 0⟩,
    is_processed_for_recommendation := false }

/-- `oidTx` as `fetch_transactions_by_date` returns it, `_id`
stringified. -/
def oidTxFetched : Transaction := { oidTx with _id := .str "65defc1399" }

/-- A transaction of 03/01/2024 already marked
`is_processed_for_recommendation = True`. -/
def processedTx : Transaction :=
  { _id := .str "B7", transaction_id := "T2", transaction_type := "credit",
    balance_after_transaction := "900", amount := "75",
    merchant_category := "grocery", description := "Groceries",
    transaction_date := ⟨2024, 3, 1, 12, 0, 0⟩,
    is_processed_for_recommendation := true }

/-! ### Claims C1, C3–C8 -/

/-- Claim C1: the claim (and the function's own docstring, "Fetch ALL
transactions for a given date (ignoring is_processed_for_recommendation)")
says `fetch_transactions_by_date` applies no flag filter, but the query
it builds (lines 21–27) includes `is_processed_for_recommendation:
False`.  A processed transaction lying inside the day window — the
first two conjuncts — is dropped from the result. -/
theorem claim_C1_fetch_filters_flag :
    dtLe ⟨2024, 3, 1, 0, 0, 0⟩ processedTx.transaction_date = true ∧
    dtLe processedTx.transaction_date ⟨2024, 3, 1, 23, 59, 59⟩ = true ∧
    fetch_transactions_by_date [processedTx] "03/01/2024" = .ok [] := by decide

/-- Claim C3: when the selection query returns no records the pipeline
returns exactly the no-data message object with the input date and makes
no provider call — the trace records zero provider calls and the result
holds for every provider. -/
theorem claim_C3_no_eligible {J : Type} (parse : String → Option J)
    (db : List Transaction) (provider : String → String → Except String String)
    (date_str : String)
    (hfetch : recommendFetchStage db date_str = some []) :
    get_recommended_transaction_by_date parse db provider date_str =
      .ok (.noData "No unprocessed transactions found for this date" date_str, ⟨0, 0⟩) := by
  simp [get_recommended_transaction_by_date, hfetch]

/-- Claim C3 witness: an empty store on a well-formed date. -/
theorem claim_C3_witness :
    get_recommended_transaction_by_date (fun _ => (none : Option Unit)) []
      (fun _ _ => .ok "unused") "03/01/2024" =
      .ok (.noData "No unprocessed transactions found for this date" "03/01/2024", ⟨0, 0⟩) :=
  claim_C3_no_eligible _ _ _ _ (by decide)

/-- Claim C4: a provider exception is absorbed into
`{error: "OpenAI API call failed: <cause>"}` — an `apiError` value,
whose constructor carries no `raw_response` field — the function still
returns normally (`.ok`, no propagated exception), and the trace shows
one provider call and zero parse attempts. -/
theorem claim_C4_provider_failure_absorbed {J : Type} (parse : String → Option J)
    (db : List Transaction) (provider : String → String → Except String String)
    (date_str e : String) (txs : List Transaction)
    (hfetch : recommendFetchStage db date_str = some txs) (hne : txs ≠ [])
    (hprov : provider system_instructions (user_message txs) = .error e) :
    get_recommended_transaction_by_date parse db provider date_str =
      .ok (.apiError ("OpenAI API call failed: " ++ e), ⟨1, 0⟩) := by
  have hempty : txs.isEmpty = false := by
    cases txs with
    | nil => exact absurd rfl hne
    | cons a t => rfl
  simp [get_recommended_transaction_by_date, hfetch, hempty, hprov]

/-- Claim C4 witness: a store with one eligible transaction and a
provider that raises. -/
theorem claim_C4_witness :
    get_recommended_transaction_by_date (fun _ => (none : Option Unit)) [oidTx]
      (fun _ _ => .error "connection refused") "03/01/2024" =
      .ok (.apiError ("OpenAI API call failed: " ++ "connection refused"), ⟨1, 0⟩) :=
  claim_C4_provider_failure_absorbed (fun _ => (none : Option Unit)) [oidTx]
    (fun _ _ => .error "connection refused") "03/01/2024" "connection refused" [oidTx]
    (by decide) (by decide) rfl

/-- Claim C5: with `cleaned` the cleaned reply text fed to the parser,
a parse failure returns exactly
`{error: "Failed to parse LLM response as JSON.", raw_response: cleaned}`
with that same cleaned string, and a parse success returns the decoded
value as-is (`success j` for whatever `j` the parser produced, with no
shape inspection). -/
theorem claim_C5_decode_behavior {J : Type} (parse : String → Option J)
    (db : List Transaction) (provider : String → String → Except String String)
    (date_str content : String) (txs : List Transaction) (cleaned : String)
    (hfetch : recommendFetchStage db date_str = some txs) (hne : txs ≠ [])
    (hprov : provider system_instructions (user_message txs) = .ok content)
    (hclean : cleaned = String.mk (clean_completion_text (String.mk (strip content.data)).data)) :
    (parse cleaned = none →
      get_recommended_transaction_by_date parse db provider date_str =
        .ok (.decodeError "Failed to parse LLM response as JSON." cleaned, ⟨1, 1⟩)) ∧
    ∀ j : J, parse cleaned = some j →
      get_recommended_transaction_by_date parse db provider date_str =
        .ok (.success j, ⟨1, 1⟩) := by
  have hempty : txs.isEmpty = false := by
    cases txs with
    | nil => exact absurd rfl hne
    | cons a t => rfl
  subst hclean
  constructor
  · intro hparse
    simp [get_recommended_transaction_by_date, hfetch, hempty, hprov, hparse]
  · intro j hparse
    simp [get_recommended_transaction_by_date, hfetch, hempty, hprov, hparse]

/-- Claim C5 witness: a parser that rejects everything yields the
decode-error object carrying the cleaned reply text. -/
theorem claim_C5_witness :
    get_recommended_transaction_by_date (fun _ => (none : Option Unit)) [oidTx]
      (fun _ _ => .ok "not json") "03/01/2024" =
      .ok (.decodeError "Failed to parse LLM response as JSON." "not json", ⟨1, 1⟩) :=
  (claim_C5_decode_behavior (fun _ => (none : Option Unit)) [oidTx]
    (fun _ _ => .ok "not json") "03/01/2024" "not json" [oidTx] "not json"
    (by decide) (by decide) rfl (by decide)).1 rfl

/-- Claim C6: for every date string the parser accepts, the window built
by `fetch_transactions_by_date` is midnight through 23:59:59 of that
same calendar day (naive datetimes, no timezone conversion), and the
window built by `get_recommended_transaction_by_date` is identical —
the two queries differ only past the window, in nothing that touches the
day boundaries. -/
theorem claim_C6_same_window (date_str : String) (y m d : Nat)
    (h : strptime_mdY date_str = some (y, m, d)) :
    fetchWindow date_str = some (⟨y, m, d, 0, 0, 0⟩, ⟨y, m, d, 23, 59, 59⟩) ∧
    recommendWindow date_str = fetchWindow date_str := by
  refine ⟨?_, ?_⟩
  · simp [fetchWindow, h]
  · simp [fetchWindow, recommendWindow]

/-- Claim C6 witness: the windows for 03/01/2024. -/
theorem claim_C6_witness :
    strptime_mdY "03/01/2024" = some (2024, 3, 1) ∧
    fetchWindow "03/01/2024" =
      some (⟨2024, 3, 1, 0, 0, 0⟩, ⟨2024, 3, 1, 23, 59, 59⟩) ∧
    recommendWindow "03/01/2024" = fetchWindow "03/01/2024" :=
  ⟨by decide, (claim_C6_same_window "03/01/2024" 2024 3 1 (by decide)).1,
    (claim_C6_same_window "03/01/2024" 2024 3 1 (by decide)).2⟩

/-- Claim C7 (amended): in `fetch_transactions_by_date` every returned
record's identifier has been converted to a plain string (lines 30–31);
the second entry point performs no such conversion — see the
counterexample. -/
theorem claim_C7_fetch_ids_stringified (db : List Transaction) (date_str : String)
    (txs : List Transaction) (h : fetch_transactions_by_date db date_str = .ok txs)
    (tx : Transaction) (htx : tx ∈ txs) : tx._id.isStr = true := by
  unfold fetch_transactions_by_date at h
  cases hw : fetchWindow date_str with
  | none => rw [hw] at h; exact absurd h (by simp)
  | some w =>
    obtain ⟨ws, we⟩ := w
    rw [hw] at h
    simp only [Except.ok.injEq] at h
    subst h
    obtain ⟨tx', _, rfl⟩ := List.mem_map.mp htx
    rfl

/-- Claim C7 witness: the ObjectId record comes back with a string id. -/
theorem claim_C7_witness : oidTxFetched._id.isStr = true :=
  claim_C7_fetch_ids_stringified [oidTx] "03/01/2024" [oidTxFetched] (by decide)
    oidTxFetched (by simp)

/-- Claim C7 counterexample: the fetch stage of
`get_recommended_transaction_by_date` (lines 62–74) hands the retrieved
records downstream with their native ids intact — the record `oidTx` it
passes on still carries a non-string ObjectId, so the claim's "in both
entry points" is false. -/
theorem claim_C7_counterexample :
    recommendFetchStage [oidTx] "03/01/2024" = some [oidTx] ∧
    oidTx._id.isStr = false := by decide

/-- Claim C8: a date string the parser rejects makes both entry points
fail with the format error — an `.error` outcome, not any `.ok`
structured result, for every store, parser and provider. -/
theorem claim_C8_format_error_propagates {J : Type} (parse : String → Option J)
    (db : List Transaction) (provider : String → String → Except String String)
    (date_str : String) (h : strptime_mdY date_str = none) :
    fetch_transactions_by_date db date_str = .error (.formatError date_str) ∧
    get_recommended_transaction_by_date parse db provider date_str =
      .error (.formatError date_str) := by
  constructor
  · simp [fetch_transactions_by_date, fetchWindow, h]
  · simp [get_recommended_transaction_by_date, recommendFetchStage, recommendWindow, h]

/-- Claim C8 witness: the ISO-style string "2024-03-01" is rejected. -/
theorem claim_C8_witness :
    fetch_transactions_by_date [] "2024-03-01" = .error (.formatError "2024-03-01") ∧
    get_recommended_transaction_by_date (fun _ => (none : Option Unit)) []
      (fun _ _ => .ok "unused") "2024-03-01" = .error (.formatError "2024-03-01") :=
  claim_C8_format_error_propagates _ _ _ _ (by decide)
